import Mathlib

/-!
Verification of the poorman_nn layer library (src/poornn/linears.py and
src/poornn/functions.py) against its natural-language specification.

Conventions of the shallow embedding:
* numpy arrays of rank 1 are `List ℚ`, arrays of rank 2 are `List (List ℚ)`
  (a list of rows); complex-valued arrays are lists of `Cq` (rational
  complex numbers).  Exact rationals stand in for IEEE floats: every claim
  below is about data movement, layout, validation and error flow, none is
  about rounding.
* Python exceptions are modelled by `Except PyErr`; the distinct exception
  classes that the source can raise are the constructors of `PyErr`.
* transcendental library routines (`scipy.log`, `np.exp`) and the seeded
  numpy random stream are uninterpreted function parameters: the layers
  under verification only move their results around.
-/

/-- Python exception classes raised by the embedded code.  `attributeError`
carries the name of the missing runtime binding, mirroring the message
"Please initialize variable `<name>` (use @set_runtime_vars) ..." of the
source; `valueError` carries the message text. -/
inductive PyErr where
  | attributeError (name : String)
  | typeError
  | valueError (msg : String)
  | indexError
  | zeroDivisionError
  deriving DecidableEq

/-- Predicate for "configuration error naming the missing binding": in the
source this is exactly the guarded `AttributeError` naming the runtime
variable. -/
def PyErr.isConfigError : PyErr → Bool
  | .attributeError _ => true
  | _ => false

/-! ## Linear layer (src/poornn/linears.py)

The weight is a `(fout, fin)` matrix kept in Fortran order, the bias a
`(fout,)` vector.  We embed the parameter tensors as functions out of `Fin`
so that shapes are carried by the types. -/

/-- Parameter state of `Linear`: `weight` is the `(fout, fin)` matrix,
`bias` the `(fout,)` vector (`linears.py`, lines 23-25). -/
@[ext]
structure LinearLayer (fout fin : Nat) where
  weight : Fin fout → Fin fin → ℚ
  bias : Fin fout → ℚ

/-- Fortran-order (column-major) flattening of an `(m, n)` matrix:
element `k` of the result is the entry at row `k % m`, column `k / m`,
exactly `ndarray.ravel(order='F')`. -/
def ravelF (m n : Nat) (w : Fin m → Fin n → ℚ) : List ℚ :=
  List.ofFn (fun k : Fin (m * n) =>
    w ⟨k.val % m, Nat.mod_lt _ (by
          rcases Nat.eq_zero_or_pos m with h | h
          · exact absurd k.isLt (by simp [h])
          · exact h)⟩
      ⟨k.val / m, by
          rcases Nat.eq_zero_or_pos m with h | h
          · exact absurd k.isLt (by simp [h])
          · exact Nat.div_lt_of_lt_mul k.isLt⟩)

/-- Embeds `Linear.get_variables` (`linears.py`, lines 59-60):
`np.concatenate([self.weight.ravel(order='F'), self.bias])`. -/
def getVariables (m n : Nat) (L : LinearLayer m n) : List ℚ :=
  ravelF m n L.weight ++ List.ofFn L.bias

/-- Embeds `Linear.set_variables` (`linears.py`, lines 62-70).
`mode='set'` copies `variables[:weight.size]` reshaped in Fortran order into
the weight and `variables[weight.size:]` into the bias; the reshape raises
unless the slice sizes match exactly, modelled by the length guard returning
`none`.  `mode='add'` executes `self.weight += variables[0]` and
`self.bias += variables[1]` — numpy broadcasting adds the *scalar* first and
second elements of the flat vector to every entry (an `IndexError` on
vectors shorter than 2 is modelled by `none`; the partial weight mutation
preceding that error is not observable through any claim).  Any other mode
string falls through the `if/elif` with no effect. -/
def setVariables (m n : Nat) (L : LinearLayer m n) (v : List ℚ) (mode : String) :
    Option (LinearLayer m n) :=
  if mode = "set" then
    if v.length = m * n + m then
      some { weight := fun i j => v.getD (j.val * m + i.val) 0,
             bias := fun i => v.getD (m * n + i.val) 0 }
    else none
  else if mode = "add" then
    if 2 ≤ v.length then
      some { weight := fun i j => L.weight i j + v.getD 0 0,
             bias := fun i => L.bias i + v.getD 1 0 }
    else none
  else some L

theorem getVariables_length (m n : Nat) (L : LinearLayer m n) :
    (getVariables m n L).length = m * n + m := by
  simp [getVariables, ravelF]

theorem getVariables_getD_weight (m n : Nat) (L : LinearLayer m n)
    (i : Fin m) (j : Fin n) :
    (getVariables m n L).getD (j.val * m + i.val) 0 = L.weight i j := by
  have hlt : j.val * m + i.val < m * n := by
    have hj : j.val + 1 ≤ n := j.isLt
    calc j.val * m + i.val < j.val * m + m := by omega
      _ = (j.val + 1) * m := by ring
      _ ≤ n * m := Nat.mul_le_mul_right m hj
      _ = m * n := Nat.mul_comm n m
  have hlen : j.val * m + i.val < (ravelF m n L.weight).length := by
    simpa [ravelF] using hlt
  rw [getVariables, List.getD_append _ _ _ _ hlen]
  rw [List.getD_eq_getElem _ _ hlen]
  unfold ravelF
  rw [List.getElem_ofFn]
  have hmod : (j.val * m + i.val) % m = i.val := by
    rw [Nat.add_comm, Nat.add_mul_mod_self_right]
    exact Nat.mod_eq_of_lt i.isLt
  have hdiv : (j.val * m + i.val) / m = j.val := by
    have hm : 0 < m := by omega
    rw [Nat.mul_comm j.val m, Nat.mul_add_div hm]
    have : i.val / m = 0 := Nat.div_eq_of_lt i.isLt
    omega
  congr 1 <;> exact Fin.ext (by simp [hmod, hdiv])

theorem getVariables_getD_bias (m n : Nat) (L : LinearLayer m n) (i : Fin m) :
    (getVariables m n L).getD (m * n + i.val) 0 = L.bias i := by
  have hlen : (ravelF m n L.weight).length ≤ m * n + i.val := by
    simp [ravelF]
  rw [getVariables, List.getD_append_right _ _ _ _ hlen]
  have hlen' : (ravelF m n L.weight).length = m * n := by simp [ravelF]
  rw [hlen']
  have hsub : m * n + i.val - m * n = i.val := by omega
  rw [hsub]
  have hi : i.val < (List.ofFn L.bias).length := by
    simp only [List.length_ofFn]
    exact i.isLt
  rw [List.getD_eq_getElem _ _ hi, List.getElem_ofFn]

/-- Claim C1: `get_variables` returns the Fortran-flattened weight followed
by the bias (characterised entry-wise: index `j*fout + i` holds
`weight[i,j]`, index `weight.size + i` holds `bias[i]`), and
`set_variables(get_variables())` in the default `'set'` mode returns the
layer with weight and bias identical to before. -/
theorem linear_get_set_roundtrip (m n : Nat) (L : LinearLayer m n) :
    (getVariables m n L).length = m * n + m ∧
    (∀ (i : Fin m) (j : Fin n),
      (getVariables m n L).getD (j.val * m + i.val) 0 = L.weight i j) ∧
    (∀ i : Fin m, (getVariables m n L).getD (m * n + i.val) 0 = L.bias i) ∧
    setVariables m n L (getVariables m n L) "set" = some L := by
  refine ⟨getVariables_length m n L,
          getVariables_getD_weight m n L,
          getVariables_getD_bias m n L, ?_⟩
  rw [setVariables, if_pos rfl, if_pos (getVariables_length m n L)]
  congr 1
  ext i j
  · exact getVariables_getD_weight m n L i j
  · exact getVariables_getD_bias m n L i

/-- Claim C4 (code evaluation at the failing input): a 1×2 `Linear` with
zero weight and bias, given the flat vector `[1,2,3]` in mode `'add'`, ends
with weight `[[1,1]]` and bias `[2]` — the scalar `v[0]` was broadcast onto
every weight entry and `v[1]` onto the bias — instead of the claimed
weight `[[1,2]]`, bias `[3]`. -/
theorem setVariables_add_broadcast :
    (setVariables 1 2 ⟨fun _ _ => 0, fun _ => 0⟩ [1, 2, 3] "add").map
        (fun L => (L.weight 0 0, L.weight 0 1, L.bias 0)) = some (1, 1, 2) := by
  have h1 : ("add" : String) ≠ "set" := by decide
  rw [setVariables, if_neg h1, if_pos (by norm_num)]
  norm_num [List.getD]

/-- Claim C10: `set_variables` with a mode other than `'set'` or `'add'`
falls through the `if/elif` chain — no exception, weight and bias
unchanged. -/
theorem setVariables_other_mode (m n : Nat) (L : LinearLayer m n)
    (v : List ℚ) (mode : String) (h1 : mode ≠ "set") (h2 : mode ≠ "add") :
    setVariables m n L v mode = some L := by
  rw [setVariables, if_neg h1, if_neg h2]

/-- Witness for C10 at the concrete mode string `"momentum"`. -/
theorem setVariables_other_mode_witness :
    (("momentum" : String) ≠ "set" ∧ ("momentum" : String) ≠ "add") ∧
    setVariables 1 1 ⟨fun _ _ => 5, fun _ => 7⟩ [1, 2] "momentum" =
      some ⟨fun _ _ => 5, fun _ => 7⟩ :=
  ⟨⟨by decide, by decide⟩,
   setVariables_other_mode 1 1 ⟨fun _ _ => 5, fun _ => 7⟩ [1, 2] "momentum"
     (by decide) (by decide)⟩

/-! ## Axis-taking operators (src/poornn/functions.py): construction

Python axis arguments are arbitrary integers; each constructor below copies
the validation of its `__init__` verbatim.  `axis % len(input_shape)` is
Python's modulo with a positive divisor, which `Int.emod` reproduces; on an
empty shape Python raises `ZeroDivisionError`, modelled explicitly. -/

/-- Python list slicing `l[:i]` for an arbitrary integer bound (negative
indices count from the end, out-of-range bounds clamp). -/
def pyTake (l : List Nat) (i : Int) : List Nat :=
  if 0 ≤ i then l.take i.toNat else l.take ((l.length : Int) + i).toNat

/-- Normalized axis and reduced output shape shared by `Sum`, `Mean`,
`CrossEntropy` and `SoftMaxCrossEntropy`: `axis % len(shape)` and
`input_shape[:axis] + input_shape[axis+1:]`. -/
def normAxis (input_shape : List Nat) (axis : Int) : Nat :=
  (axis % (input_shape.length : Int)).toNat

/-- State of `Sum` (also reused for `Mean`, which stores the same fields). -/
structure SumState where
  axis : Nat
  input_shape : List Nat
  output_shape : List Nat
  deriving DecidableEq

/-- Embeds `Sum.__init__` (`functions.py`, lines 129-133): reject
`axis > len(input_shape)-1`, then store `axis % len(input_shape)` and the
shape with that axis dropped. -/
def sumInit (input_shape : List Nat) (axis : Int) : Except PyErr SumState :=
  if ((input_shape.length : Int) - 1) < axis then
    .error (.valueError "invalid axis")
  else if input_shape.length = 0 then
    .error .zeroDivisionError
  else
    let a := normAxis input_shape axis
    .ok ⟨a, input_shape, input_shape.take a ++ input_shape.drop (a + 1)⟩

/-- Embeds `Mean.__init__` (`functions.py`, lines 152-156), identical
validation and fields to `Sum.__init__`. -/
def meanInit (input_shape : List Nat) (axis : Int) : Except PyErr SumState :=
  if ((input_shape.length : Int) - 1) < axis then
    .error (.valueError "invalid axis")
  else if input_shape.length = 0 then
    .error .zeroDivisionError
  else
    let a := normAxis input_shape axis
    .ok ⟨a, input_shape, input_shape.take a ++ input_shape.drop (a + 1)⟩

/-- State of `SoftMax`: the constructor stores the raw axis argument with no
validation and no normalization. -/
structure SoftMaxState where
  axis : Int
  input_shape : List Nat
  deriving DecidableEq

/-- Embeds `SoftMax.__init__` (`functions.py`, lines 354-356): it performs
no check at all — `self.axis = axis` and the base-class call, which only
records shapes and dtype. -/
def softMaxInit (input_shape : List Nat) (axis : Int) : Except PyErr SoftMaxState :=
  .ok ⟨axis, input_shape⟩

/-- State of `CrossEntropy`: axis data plus the `y_true` runtime binding,
`None` until `set_runtime_vars` supplies it. -/
structure CrossEntropyState where
  axis : Nat
  input_shape : List Nat
  output_shape : List Nat
  y_true : Option (List ℚ)
  deriving DecidableEq

/-- Embeds `CrossEntropy.__init__` (`functions.py`, lines 375-380). -/
def crossEntropyInit (input_shape : List Nat) (axis : Int) :
    Except PyErr CrossEntropyState :=
  if ((input_shape.length : Int) - 1) < axis then
    .error (.valueError "invalid axis")
  else if input_shape.length = 0 then
    .error .zeroDivisionError
  else
    let a := normAxis input_shape axis
    .ok ⟨a, input_shape, input_shape.take a ++ input_shape.drop (a + 1), none⟩

/-- Embeds `SoftMaxCrossEntropy.__init__` (`functions.py`, lines 401-406).
The output shape uses the *raw* axis for its first slice
(`input_shape[:axis]`) but the normalized axis for the second
(`input_shape[self.axis+1:]`), exactly as written in the source. -/
def smceInit (input_shape : List Nat) (axis : Int) :
    Except PyErr CrossEntropyState :=
  if ((input_shape.length : Int) - 1) < axis then
    .error (.valueError "invalid axis")
  else if input_shape.length = 0 then
    .error .zeroDivisionError
  else
    let a := normAxis input_shape axis
    .ok ⟨a, input_shape, pyTake input_shape axis ++ input_shape.drop (a + 1), none⟩

/-- State of `DropOut`: construction attributes plus the two runtime slots
`seed` and `mask`, both `None` until the seed is bound. -/
structure DropOutState where
  input_shape : List Nat
  keep_rate : ℚ
  axis : Nat
  is_inplace : Bool
  seed : Option Int
  mask : Option (List Bool)
  deriving DecidableEq

/-- Embeds `DropOut.__init__` (`functions.py`, lines 316-322): same axis
validation, then `keep_rate`, normalized axis, `seed = None`,
`mask = None`. -/
def dropOutInit (input_shape : List Nat) (keep_rate : ℚ) (axis : Int)
    (is_inplace : Bool) : Except PyErr DropOutState :=
  if ((input_shape.length : Int) - 1) < axis then
    .error (.valueError "invalid axis")
  else if input_shape.length = 0 then
    .error .zeroDivisionError
  else
    .ok ⟨input_shape, keep_rate, normAxis input_shape axis, is_inplace, none, none⟩

/-- Claim C3 counterexample: `SoftMax` constructed on input shape `(2,3)`
with axis `5` — far out of range — succeeds with the raw axis stored; no
shape error is raised at construction time. -/
theorem softmax_no_axis_check :
    softMaxInit [2, 3] 5 = Except.ok ⟨5, [2, 3]⟩ := rfl

/-- Claim C3, amended: `Sum`, `Mean`, `CrossEntropy`, `SoftMaxCrossEntropy`
and `DropOut` reject an axis exceeding `len(input_shape) - 1` with a shape
error (`ValueError`) at construction time; `SoftMax` performs no
construction-time axis validation and accepts any axis.  (Negative axes are
wrapped modulo the rank by the five validating constructors without any
lower-bound check.) -/
theorem axis_out_of_range (shape : List Nat) (axis : Int) (kr : ℚ) (ip : Bool)
    (h : ((shape.length : Int) - 1) < axis) :
    sumInit shape axis = .error (.valueError "invalid axis") ∧
    meanInit shape axis = .error (.valueError "invalid axis") ∧
    crossEntropyInit shape axis = .error (.valueError "invalid axis") ∧
    smceInit shape axis = .error (.valueError "invalid axis") ∧
    dropOutInit shape kr axis ip = .error (.valueError "invalid axis") ∧
    softMaxInit shape axis = .ok ⟨axis, shape⟩ := by
  refine ⟨?_, ?_, ?_, ?_, ?_, rfl⟩ <;>
    simp only [sumInit, meanInit, crossEntropyInit, smceInit, dropOutInit,
      if_pos h]

/-- Witness for the amended C3 at shape `(2,3)`, axis `5`,
`keep_rate = 1/2`. -/
theorem axis_out_of_range_witness :
    ((([2, 3] : List Nat).length : Int) - 1) < 5 ∧
    (sumInit [2, 3] 5 = .error (.valueError "invalid axis") ∧
     meanInit [2, 3] 5 = .error (.valueError "invalid axis") ∧
     crossEntropyInit [2, 3] 5 = .error (.valueError "invalid axis") ∧
     smceInit [2, 3] 5 = .error (.valueError "invalid axis") ∧
     dropOutInit [2, 3] (1 / 2) 5 false = .error (.valueError "invalid axis") ∧
     softMaxInit [2, 3] 5 = .ok ⟨5, [2, 3]⟩) :=
  ⟨by decide, axis_out_of_range [2, 3] 5 (1 / 2) false (by decide)⟩

/-! ## Sum and Mean: forward and backward (rank-2 instance)

The source handles arrays of any rank through tuple indexing; the claims
exercise rank-2 inputs, embedded as lists of rows with axis 0 (down the
rows) or axis 1 (along each row). -/

def listSum (l : List ℚ) : ℚ := l.foldr (· + ·) 0

/-- Elementwise sum of two equal-length rows. -/
def zipAdd (a b : List ℚ) : List ℚ := (a.zip b).map fun p => p.1 + p.2

/-- Column sums of a rank-2 array, `np.sum(x, axis=0)`. -/
def colSums : List (List ℚ) → List ℚ
  | [] => []
  | [r] => r
  | r :: rest => zipAdd r (colSums rest)

/-- Embeds `Sum.forward` (`functions.py`, lines 135-136):
`np.sum(x, axis=self.axis)` on a rank-2 input. -/
def sumForward (st : SumState) (x : List (List ℚ)) : List ℚ :=
  if st.axis = 0 then colSums x else x.map listSum

/-- Embeds `Sum.backward` (`functions.py`, lines 138-145): insert a new
axis into `dy` at the reduced position and `np.repeat` it
`x.shape[axis]` times along that position. -/
def sumBackward (st : SumState) (x : List (List ℚ)) (dy : List ℚ) :
    List (List ℚ) :=
  if st.axis = 0 then
    List.replicate x.length dy
  else
    dy.map fun d => List.replicate (x.getD 0 []).length d

/-- Claim C5: `Sum` on shape `(2,3)` with axis `0` constructs with output
shape `(3,)`; forward on `[[1,2,3],[4,5,6]]` yields `[5,7,9]`; backward
with `dy = [1,1,1]` broadcasts it back to `[[1,1,1],[1,1,1]]`. -/
theorem sum_concrete_scenario :
    sumInit [2, 3] 0 = .ok ⟨0, [2, 3], [3]⟩ ∧
    sumForward ⟨0, [2, 3], [3]⟩ [[1, 2, 3], [4, 5, 6]] = [5, 7, 9] ∧
    sumBackward ⟨0, [2, 3], [3]⟩ [[1, 2, 3], [4, 5, 6]] [1, 1, 1] =
      [[1, 1, 1], [1, 1, 1]] := by
  refine ⟨rfl, ?_, rfl⟩
  show zipAdd [1, 2, 3] [4, 5, 6] = [5, 7, 9]
  norm_num [zipAdd, List.zip]

/-! ## Complex-valued arrays

`SquareLoss` is the one operator whose claims involve complex dtypes; its
elements are embedded as rational complex numbers with explicit
conjugation, mirroring numpy's elementwise `conj` and `*`. -/

/-- Rational complex number standing in for a numpy complex scalar. -/
structure Cq where
  re : ℚ
  im : ℚ
  deriving DecidableEq

def Cq.sub (a b : Cq) : Cq := ⟨a.re - b.re, a.im - b.im⟩

def Cq.mul (a b : Cq) : Cq :=
  ⟨a.re * b.re - a.im * b.im, a.re * b.im + a.im * b.re⟩

/-- Complex conjugate, `ndarray.conj()`. -/
def Cq.conj (a : Cq) : Cq := ⟨a.re, -a.im⟩

/-! ## SquareLoss (src/poornn/functions.py, lines 429-452) -/

/-- State of `SquareLoss`: the input dtype string and the `y_true` runtime
binding (`None` until bound). -/
structure SquareLossState where
  itype : String
  y_true : Option (List Cq)
  deriving DecidableEq

/-- Embeds `SquareLoss.forward` (`functions.py`, lines 437-446): a guarded
`AttributeError` naming `y_true` when unbound, otherwise elementwise
`diff.conj() * diff` with `diff = x - y_true`. -/
def squareLossForward (st : SquareLossState) (x : List Cq) :
    Except PyErr (List Cq) :=
  match st.y_true with
  | none => .error (.attributeError "y_true")
  | some yt => .ok ((x.zip yt).map fun p => ((p.1.sub p.2).conj).mul (p.1.sub p.2))

/-- Embeds `SquareLoss.backward` (`functions.py`, lines 448-452): no guard —
with `y_true` unbound the subtraction `xy[0] - None` raises `TypeError`;
otherwise `(x - y_true) * dy` when `itype[:7] == 'complex'`, else
`2 * (x - y_true) * dy`.  The `EMPTY_VAR` parameter-gradient placeholder of
the return pair is omitted. -/
def squareLossBackward (st : SquareLossState) (x dy : List Cq) :
    Except PyErr (List Cq) :=
  match st.y_true with
  | none => .error .typeError
  | some xt =>
    if st.itype.take 7 = "complex" then
      .ok (((x.zip xt).zip dy).map fun p => (p.1.1.sub p.1.2).mul p.2)
    else
      .ok (((x.zip xt).zip dy).map fun p =>
        ((Cq.mk 2 0).mul (p.1.1.sub p.1.2)).mul p.2)

/-- Claim C6: with `y_true` bound, `SquareLoss.forward` returns the
elementwise squared magnitude of `x - y_true` (a real value: the imaginary
part is zero), and `backward` returns `2*(x - y_true)*dy` for the real
dtypes `float32`/`float64` and `(x - y_true)*dy` for the complex dtypes
`complex64`/`complex128`. -/
theorem squareLoss_contract (st : SquareLossState) (yt : List Cq)
    (x dy : List Cq) (h : st.y_true = some yt) :
    squareLossForward st x =
      .ok ((x.zip yt).map fun p =>
        ⟨(p.1.re - p.2.re) ^ 2 + (p.1.im - p.2.im) ^ 2, 0⟩) ∧
    (st.itype = "float32" ∨ st.itype = "float64" →
      squareLossBackward st x dy =
        .ok (((x.zip yt).zip dy).map fun p =>
          ((Cq.mk 2 0).mul (p.1.1.sub p.1.2)).mul p.2)) ∧
    (st.itype = "complex64" ∨ st.itype = "complex128" →
      squareLossBackward st x dy =
        .ok (((x.zip yt).zip dy).map fun p => (p.1.1.sub p.1.2).mul p.2)) := by
  obtain ⟨it, oyt⟩ := st
  cases oyt with
  | none => simp at h
  | some yt' =>
    obtain rfl : yt' = yt := by simpa using h
    refine ⟨?_, ?_, ?_⟩
    · simp only [squareLossForward]
      congr 1
      apply List.map_congr_left
      intro p _
      simp only [Cq.sub, Cq.conj, Cq.mul, Cq.mk.injEq]
      constructor <;> ring
    · intro hreal
      have hne : it.take 7 ≠ "complex" := by
        rcases hreal with h' | h' <;> simp only at h' <;> rw [h'] <;> decide
      simp only [squareLossBackward, if_neg hne]
    · intro hcplx
      have heq : it.take 7 = "complex" := by
        rcases hcplx with h' | h' <;> simp only at h' <;> rw [h'] <;> decide
      simp only [squareLossBackward, if_pos heq]

/-- Witness for C6 on `float64` with `y_true = [3+4i]`: the forward value of
`x = [0]` is `[25]` (squared magnitude) and the backward value with
`dy = [1]` is `[-6-8i]`. -/
theorem squareLoss_contract_witness :
    (SquareLossState.mk "float64" (some [⟨3, 4⟩])).y_true = some [⟨3, 4⟩] ∧
    squareLossForward ⟨"float64", some [⟨3, 4⟩]⟩ [⟨0, 0⟩] = .ok [⟨25, 0⟩] ∧
    squareLossBackward ⟨"float64", some [⟨3, 4⟩]⟩ [⟨0, 0⟩] [⟨1, 0⟩] =
      .ok [⟨-6, -8⟩] := by
  have h := squareLoss_contract ⟨"float64", some [⟨3, 4⟩]⟩ [⟨3, 4⟩]
    [⟨0, 0⟩] [⟨1, 0⟩] rfl
  refine ⟨rfl, ?_, ?_⟩
  · exact h.1.trans (by norm_num)
  · exact (h.2.1 (Or.inr rfl)).trans (by norm_num [Cq.mul, Cq.sub])

/-! ## CrossEntropy and SoftMaxCrossEntropy: forward and backward
(rank-1 instance, the reduced axis being the only axis)

`scipy.log` and `np.exp` are uninterpreted parameters `logf`, `expf`. -/

/-- Epsilon floor `CrossEntropy.ZERO_REF = 1e-15`. -/
def ZERO_REF : ℚ := 1 / 10 ^ 15

/-- Embeds `CrossEntropy.forward` (`functions.py`, lines 382-388): there is
*no* unbound-`y_true` guard; Python evaluates `-self.y_true` first, which
raises `TypeError` on `None`.  When bound the result is
`(-y_true * log(maximum(ZERO_REF, x))).sum()`. -/
def crossEntropyForward (logf : ℚ → ℚ) (st : CrossEntropyState) (x : List ℚ) :
    Except PyErr ℚ :=
  match st.y_true with
  | none => .error .typeError
  | some yt => .ok (listSum ((x.zip yt).map fun p => -p.2 * logf (max ZERO_REF p.1)))

/-- Embeds `CrossEntropy.backward` (`functions.py`, lines 390-392): no
guard — `self.y_true / np.maximum(x, ZERO_REF)` raises `TypeError` on
`None`; when bound, `-dy * (y_true / maximum(x, ZERO_REF))`. -/
def crossEntropyBackward (st : CrossEntropyState) (x : List ℚ) (dy : ℚ) :
    Except PyErr (List ℚ) :=
  match st.y_true with
  | none => .error .typeError
  | some yt => .ok ((x.zip yt).map fun p => -dy * (p.2 / max p.1 ZERO_REF))

/-- Maximum entry of a rank-1 array, `x.max()`. -/
def listMax : List ℚ → ℚ
  | [] => 0
  | h :: t => t.foldl max h

/-- Embeds `SoftMaxCrossEntropy.forward` (`functions.py`, lines 408-419):
guarded `AttributeError` naming `y_true` when unbound; otherwise subtract
the max, exponentiate, and return `((log(Z) - x) * y_true).sum()`. -/
def smceForward (expf logf : ℚ → ℚ) (st : CrossEntropyState) (x : List ℚ) :
    Except PyErr ℚ :=
  match st.y_true with
  | none => .error (.attributeError "y_true")
  | some yt =>
    let mx := listMax x
    let xs := x.map (· - mx)
    let Z := listSum (xs.map expf)
    .ok (listSum ((xs.zip yt).map fun p => (logf Z - p.1) * p.2))

/-- Embeds `SoftMaxCrossEntropy.backward` (`functions.py`, lines 421-427):
no guard — `rho`, `Z` and `y1` are computed first, then `y1 - self.y_true`
raises `TypeError` on `None`; when bound, `dy * (y1 - y_true)` with
`y1 = rho / Z`. -/
def smceBackward (expf : ℚ → ℚ) (st : CrossEntropyState) (x : List ℚ)
    (dy : ℚ) : Except PyErr (List ℚ) :=
  match st.y_true with
  | none => .error .typeError
  | some yt =>
    let mx := listMax x
    let rho := (x.map (· - mx)).map expf
    let Z := listSum rho
    .ok ((rho.zip yt).map fun p => dy * (p.1 / Z - p.2))

/-! ## DropOut: runtime binding, forward, backward
(src/poornn/functions.py, lines 310-346)

The numpy global random generator is modelled explicitly: its state is the
pair (last seed, number of samples already drawn), and `stream s k` is the
uninterpreted value of the k-th sample of the stream that `np.random.seed(s)`
starts.  `np.random.seed` resets the state; `np.random.random(n)` draws the
next `n` samples.  This reproduces exactly what the claims need: the draw
that builds the mask depends only on the seed, never on what was drawn
before. -/

/-- Global numpy RNG state: the seed last planted and the position in its
stream. -/
structure RngState where
  planted : Int
  counter : Nat
  deriving DecidableEq

/-- Models `np.random.seed(s)`: resets the global stream. -/
def npSeed (s : Int) (_ : RngState) : RngState := ⟨s, 0⟩

/-- Models `np.random.random(n)`: the next `n` samples of the planted
stream, advancing the counter. -/
def npRandom (stream : Int → Nat → ℚ) (n : Nat) (g : RngState) :
    List ℚ × RngState :=
  (List.ofFn (fun k : Fin n => stream g.planted (g.counter + k.val)),
   ⟨g.planted, g.counter + n⟩)

/-- Embeds `DropOut.set_runtime_vars` (`functions.py`, lines 324-328).  The
base-class call is modelled from the spec: `Layer.set_runtime_vars` lives in
the missing `core.py` and, per the spec, "binds named external values" after
validating that every declared runtime name is present — for `DropOut` it
assigns the supplied seed to `self.seed`.  Then the source runs
`np.random.seed(self.seed)` and draws
`np.random.random(input_shape[axis]) < keep_rate` as the boolean mask. -/
def dropOutSetRuntimeVars (stream : Int → Nat → ℚ) (s : Int)
    (st : DropOutState) (g : RngState) : DropOutState × RngState :=
  let st1 : DropOutState := { st with seed := some s }
  let g1 := npSeed s g
  let n := st1.input_shape.getD st1.axis 0
  let rg := npRandom stream n g1
  ({ st1 with mask := some (rg.1.map fun v => decide (v < st1.keep_rate)) },
   rg.2)

/-- Row transform of the dropout mask along axis 1: kept entries divided by
`keep_rate`, dropped entries zeroed (`functions.py`, lines 338-339 and
344-345 share this update). -/
def maskRow (m : List Bool) (kr : ℚ) (row : List ℚ) : List ℚ :=
  (row.zip m).map fun p => if p.2 then p.1 / kr else 0

/-- The in-place mask update
`y[(slice(None),)*axis + (mask,)] /= keep_rate;
 y[(slice(None),)*axis + (~mask,)] = 0` on a rank-2 array: axis 0 selects
whole rows by the mask, axis 1 selects a column subset of every row. -/
def applyMask (axis : Nat) (m : List Bool) (kr : ℚ) (x : List (List ℚ)) :
    List (List ℚ) :=
  if axis = 0 then
    (x.zip m).map fun p =>
      if p.2 then p.1.map (· / kr) else p.1.map fun _ => 0
  else
    x.map (maskRow m kr)

/-- Embeds `DropOut.forward` (`functions.py`, lines 330-340): a guarded
`AttributeError` naming `seed` when unbound; otherwise the mask update on
`x` (or on a copy when not in-place — value-level output is identical, and
no claim observes forward aliasing). -/
def dropOutForward (st : DropOutState) (x : List (List ℚ)) :
    Except PyErr (List (List ℚ)) :=
  match st.seed with
  | none => .error (.attributeError "seed")
  | some _ => .ok (applyMask st.axis (st.mask.getD []) st.keep_rate x)

/-- Heap of rank-2 arrays indexed by array identity, used to express the
in-place frame effect of `DropOut.backward`. -/
def Store : Type := Nat → List (List ℚ)

/-- Modelled from the spec: `EMPTY_VAR`, the "empty parameter-gradient
placeholder" imported from the missing `core.py`, returned by every
parameter-free backward. -/
def EMPTY_VAR : List ℚ := []

/-- Embeds `DropOut.backward` (`functions.py`, lines 342-346).  There is no
seed guard and `is_inplace` is never consulted: the upstream-gradient buffer
`dy` itself is updated by the mask rule and its identity returned as the
input gradient.  With the mask unbound, the first statement
`dy[(slice(None),)*axis + (None,)] /= keep_rate` still runs — indexing with
`None` inserts a new axis, so the *whole* buffer is divided — and then
`~None` raises `TypeError`. -/
def dropOutBackward (st : DropOutState) (store : Store) (dyId : Nat) :
    Store × Except PyErr (List ℚ × Nat) :=
  match st.mask with
  | none =>
    (fun i => if i = dyId then (store dyId).map (fun row => row.map (· / st.keep_rate))
              else store i,
     .error .typeError)
  | some m =>
    (fun i => if i = dyId then applyMask st.axis m st.keep_rate (store dyId)
              else store i,
     .ok (EMPTY_VAR, dyId))

/-- Claim C8: the keep-mask produced by binding a seed is a function of the
seed (and the construction attributes) alone — two bindings of the same
seed on the same instance yield the same mask whatever the prior global RNG
state, also when rebinding after a first bind — and forward after the two
bindings is the same function of the input. -/
theorem dropOut_seed_deterministic (stream : Int → Nat → ℚ) (s : Int)
    (st : DropOutState) (g g' : RngState) (x : List (List ℚ)) :
    (dropOutSetRuntimeVars stream s st g).1.mask =
      (dropOutSetRuntimeVars stream s st g').1.mask ∧
    (dropOutSetRuntimeVars stream s
        (dropOutSetRuntimeVars stream s st g).1 g').1.mask =
      (dropOutSetRuntimeVars stream s st g).1.mask ∧
    dropOutForward (dropOutSetRuntimeVars stream s st g).1 x =
      dropOutForward (dropOutSetRuntimeVars stream s st g').1 x := by
  exact ⟨rfl, rfl, rfl⟩

/-- Claim C9: with a bound mask, `DropOut.backward` returns the identity of
the caller's `dy` buffer itself as the input gradient and overwrites that
buffer with the mask update (kept entries divided by `keep_rate`, dropped
entries zeroed); the `is_inplace` construction flag is not consulted. -/
theorem dropOut_backward_inplace (st : DropOutState) (m : List Bool)
    (store : Store) (dyId : Nat) (h : st.mask = some m) :
    (dropOutBackward st store dyId).2 = .ok (EMPTY_VAR, dyId) ∧
    (dropOutBackward st store dyId).1 dyId =
      applyMask st.axis m st.keep_rate (store dyId) ∧
    (∀ i, i ≠ dyId → (dropOutBackward st store dyId).1 i = store i) ∧
    dropOutBackward { st with is_inplace := false } store dyId =
      dropOutBackward { st with is_inplace := true } store dyId := by
  obtain ⟨sh, kr, ax, ip, sd, om⟩ := st
  obtain rfl : om = some m := h
  refine ⟨rfl, by simp [dropOutBackward], ?_, rfl⟩
  intro i hi
  simp [dropOutBackward, hi]

/-- Witness for C9: a dropout layer on shape `(1,2)`, axis 1,
`keep_rate = 1/2`, mask `[true, false]`; the buffer holding `[[2,4]]`
is overwritten to `[[4,0]]` and its identity (7) returned; the original
buffer contents are destroyed. -/
theorem dropOut_backward_inplace_witness :
    (DropOutState.mk [1, 2] (1 / 2) 1 false (some 0)
        (some [true, false])).mask = some [true, false] ∧
    ((dropOutBackward
        ⟨[1, 2], 1 / 2, 1, false, some 0, some [true, false]⟩
        (fun _ => [[2, 4]]) 7).2 = .ok (EMPTY_VAR, 7) ∧
     (dropOutBackward
        ⟨[1, 2], 1 / 2, 1, false, some 0, some [true, false]⟩
        (fun _ => [[2, 4]]) 7).1 7 =
       applyMask 1 [true, false] (1 / 2) [[2, 4]]) ∧
    applyMask 1 [true, false] (1 / 2) [[2, 4]] = [[4, 0]] := by
  have h := dropOut_backward_inplace
    ⟨[1, 2], 1 / 2, 1, false, some 0, some [true, false]⟩ [true, false]
    (fun _ => [[2, 4]]) 7 rfl
  refine ⟨rfl, ⟨h.1, h.2.1⟩, ?_⟩
  norm_num [applyMask, maskRow, List.zip]

/-! ## Runtime-binding errors (claim C2)

Which invocations are actually guarded: `DropOut.forward`,
`SoftMaxCrossEntropy.forward` and `SquareLoss.forward` raise the
`AttributeError` naming the missing binding; `CrossEntropy.forward` and all
four `backward` methods have no guard and fail with a `TypeError` from an
operation on `None`. -/

/-- Claim C2 counterexample: `CrossEntropy.forward` invoked before `y_true`
is bound fails with a `TypeError` (from `-None * ...`), which is not a
configuration error and names no binding — against the claim that every
such forward fails with a configuration error naming the missing
binding. -/
theorem crossEntropy_forward_unbound_typeError :
    crossEntropyForward (fun q => q) ⟨0, [2], [], none⟩ [1, 1] =
      .error .typeError ∧
    PyErr.isConfigError .typeError = false := ⟨rfl, rfl⟩

/-- Claim C2, amended: before the required runtime names are bound,
`DropOut.forward`, `SoftMaxCrossEntropy.forward` and `SquareLoss.forward`
fail with a configuration error (`AttributeError`) naming the missing
binding (`seed`, `y_true`, `y_true`); `CrossEntropy.forward` and the
`backward` methods of all four operators are not guarded and fail with a
`TypeError` that names no binding. -/
theorem runtime_binding_errors (expf logf : ℚ → ℚ)
    (dSt : DropOutState) (ceSt smSt : CrossEntropyState)
    (sqSt : SquareLossState) (store : Store) (dyId : Nat)
    (x : List (List ℚ)) (xv : List ℚ) (dy : ℚ) (xc dyc : List Cq)
    (h1 : dSt.seed = none) (h2 : dSt.mask = none)
    (h3 : ceSt.y_true = none) (h4 : smSt.y_true = none)
    (h5 : sqSt.y_true = none) :
    dropOutForward dSt x = .error (.attributeError "seed") ∧
    (dropOutBackward dSt store dyId).2 = .error .typeError ∧
    crossEntropyForward logf ceSt xv = .error .typeError ∧
    crossEntropyBackward ceSt xv dy = .error .typeError ∧
    smceForward expf logf smSt xv = .error (.attributeError "y_true") ∧
    smceBackward expf smSt xv dy = .error .typeError ∧
    squareLossForward sqSt xc = .error (.attributeError "y_true") ∧
    squareLossBackward sqSt xc dyc = .error .typeError := by
  refine ⟨?_, ?_, ?_, ?_, ?_, ?_, ?_, ?_⟩
  · rw [dropOutForward, h1]
  · rw [dropOutBackward, h2]
  · rw [crossEntropyForward, h3]
  · rw [crossEntropyBackward, h3]
  · rw [smceForward, h4]
  · rw [smceBackward, h4]
  · rw [squareLossForward, h5]
  · rw [squareLossBackward, h5]

/-- Witness for the amended C2 on freshly constructed (never-bound)
states. -/
theorem runtime_binding_errors_witness :
    ((DropOutState.mk [2] (1 / 2) 0 false none none).seed = none ∧
     (DropOutState.mk [2] (1 / 2) 0 false none none).mask = none ∧
     (CrossEntropyState.mk 0 [2] [] none).y_true = none ∧
     (SquareLossState.mk "float64" none).y_true = none) ∧
    (dropOutForward ⟨[2], 1 / 2, 0, false, none, none⟩ [[1, 2]] =
       .error (.attributeError "seed") ∧
     (dropOutBackward ⟨[2], 1 / 2, 0, false, none, none⟩
        (fun _ => [[1, 2]]) 0).2 = .error .typeError ∧
     crossEntropyForward (fun q => q) ⟨0, [2], [], none⟩ [1, 0] =
       .error .typeError ∧
     crossEntropyBackward ⟨0, [2], [], none⟩ [1, 0] 1 = .error .typeError ∧
     smceForward (fun q => q) (fun q => q) ⟨0, [2], [], none⟩ [1, 0] =
       .error (.attributeError "y_true") ∧
     smceBackward (fun q => q) ⟨0, [2], [], none⟩ [1, 0] 1 =
       .error .typeError ∧
     squareLossForward ⟨"float64", none⟩ [⟨1, 0⟩] =
       .error (.attributeError "y_true") ∧
     squareLossBackward ⟨"float64", none⟩ [⟨1, 0⟩] [⟨1, 0⟩] =
       .error .typeError) :=
  ⟨⟨rfl, rfl, rfl, rfl⟩,
   runtime_binding_errors (fun q => q) (fun q => q)
     ⟨[2], 1 / 2, 0, false, none, none⟩ ⟨0, [2], [], none⟩
     ⟨0, [2], [], none⟩ ⟨"float64", none⟩ (fun _ => [[1, 2]]) 0
     [[1, 2]] [1, 0] 1 [⟨1, 0⟩] [⟨1, 0⟩] rfl rfl rfl rfl rfl⟩

/-! ## Operator factory name validation
(wrapfunc, src/poornn/functions.py, lines 17-46)

Names are lists of characters; `str.isalnum()` / `str.isdigit()` become the
corresponding `Char` predicates.  The two validation loops of the source
are reproduced statement by statement, including the `IndexError` that
Python's `name[0]` raises on an empty name after the (vacuously true)
character scan. -/

def MSG_ALNUM : String :=
  "Type names and field names can only contain alphanumeric characters and underscores"

def MSG_DIGIT : String :=
  "Type names and field names cannot start with a number"

def MSG_UNDERSCORE : String :=
  "Field names cannot start with an underscore"

def MSG_DUP : String :=
  "Encountered duplicate field name"

/-- Python's per-character test `c.isalnum() or c == '_'`. -/
def pyIsAlnumU (c : Char) : Bool := c.isAlphanum || c = '_'

/-- Python's `name[0].isdigit()`, guarded: the empty name has no first
character (the claim-side "starts with a digit" is false for it). -/
def startsWithDigit : List Char → Bool
  | [] => false
  | c :: _ => c.isDigit

/-- Python's `name.startswith('_')`. -/
def startsWithUnderscore : List Char → Bool
  | [] => false
  | c :: _ => c = '_'

/-- One pass of the first validation loop of `wrapfunc` (lines 35-39): the
character scan (`ValueError`), then `name[0]` — an `IndexError` on the
empty string — and the leading-digit test (`ValueError`). -/
def checkTypeFieldName (name : List Char) : Except PyErr Unit :=
  if name.all pyIsAlnumU then
    match name with
    | [] => .error .indexError
    | c :: _ => if c.isDigit then .error (.valueError MSG_DIGIT) else .ok ()
  else .error (.valueError MSG_ALNUM)

/-- The first loop of `wrapfunc` over `(classname,) + field_names`. -/
def checkNamesLoop : List (List Char) → Except PyErr Unit
  | [] => .ok ()
  | n :: rest =>
    match checkTypeFieldName n with
    | .error e => .error e
    | .ok _ => checkNamesLoop rest

/-- The second loop of `wrapfunc` (lines 40-46) with its `seen_names`
accumulator: leading underscore, then duplicate. -/
def checkFieldLoop (seen : List (List Char)) :
    List (List Char) → Except PyErr Unit
  | [] => .ok ()
  | n :: rest =>
    if startsWithUnderscore n then .error (.valueError MSG_UNDERSCORE)
    else if n ∈ seen then .error (.valueError MSG_DUP)
    else checkFieldLoop (n :: seen) rest

/-- Embeds the whole validation prologue of `wrapfunc`: first loop over the
class name and every field name, then the field-only loop. -/
def wrapfuncValidate (classname : List Char) (field_names : List (List Char)) :
    Except PyErr Unit :=
  match checkNamesLoop (classname :: field_names) with
  | .error e => .error e
  | .ok _ => checkFieldLoop [] field_names

/-- Claim-side condition on a single declared name, following the spec's
words: only alphanumerics and underscore, and not starting with a digit. -/
def specNameOk (n : List Char) : Bool :=
  n.all pyIsAlnumU && !startsWithDigit n

/-- A "naming error" in the sense of the claim: the `ValueError` raised by
the validation, as opposed to success or any other exception. -/
def isNamingError : Except PyErr Unit → Bool
  | .error (.valueError _) => true
  | _ => false

theorem checkName_ok_iff (n : List Char) (h : n ≠ []) :
    checkTypeFieldName n = .ok () ↔ specNameOk n = true := by
  cases n with
  | nil => exact absurd rfl h
  | cons c t =>
    by_cases hall : (c :: t).all pyIsAlnumU = true
    · by_cases hd : c.isDigit = true
      · simp [checkTypeFieldName, specNameOk, startsWithDigit, hall, hd]
      · simp [checkTypeFieldName, specNameOk, startsWithDigit, hall, hd]
    · simp [checkTypeFieldName, specNameOk, startsWithDigit, hall]

theorem checkName_ok_or_naming (n : List Char) (h : n ≠ []) :
    checkTypeFieldName n = .ok () ∨
      ∃ msg, checkTypeFieldName n = .error (.valueError msg) := by
  cases n with
  | nil => exact absurd rfl h
  | cons c t =>
    by_cases hall : (c :: t).all pyIsAlnumU = true
    · by_cases hd : c.isDigit = true
      · right
        exact ⟨MSG_DIGIT, by simp [checkTypeFieldName, hall, hd]⟩
      · left
        simp [checkTypeFieldName, hall, hd]
    · right
      exact ⟨MSG_ALNUM, by simp [checkTypeFieldName, hall]⟩

theorem checkNamesLoop_ok_iff (ns : List (List Char)) :
    checkNamesLoop ns = .ok () ↔ ∀ n ∈ ns, checkTypeFieldName n = .ok () := by
  induction ns with
  | nil => simp [checkNamesLoop]
  | cons n rest ih =>
    rw [checkNamesLoop]
    cases hc : checkTypeFieldName n with
    | error e => simp [hc, List.forall_mem_cons]
    | ok u =>
      cases u
      simp [hc, ih, List.forall_mem_cons]

theorem checkNamesLoop_ok_or_naming (ns : List (List Char))
    (h : ∀ n ∈ ns, n ≠ []) :
    checkNamesLoop ns = .ok () ∨
      ∃ msg, checkNamesLoop ns = .error (.valueError msg) := by
  induction ns with
  | nil => left; rfl
  | cons n rest ih =>
    have hn := h n (List.mem_cons_self n rest)
    rcases checkName_ok_or_naming n hn with hc | ⟨msg, hc⟩
    · rcases ih (fun x hx => h x (List.mem_cons_of_mem n hx)) with hr | ⟨msg, hr⟩
      · left
        rw [checkNamesLoop, hc]
        exact hr
      · right
        exact ⟨msg, by rw [checkNamesLoop, hc]; exact hr⟩
    · right
      exact ⟨msg, by rw [checkNamesLoop, hc]⟩

theorem checkFieldLoop_ok_iff (fields : List (List Char)) :
    ∀ seen, checkFieldLoop seen fields = .ok () ↔
      ((∀ n ∈ fields, startsWithUnderscore n = false) ∧
       (∀ n ∈ fields, n ∉ seen) ∧ fields.Nodup) := by
  induction fields with
  | nil =>
    intro seen
    simp [checkFieldLoop]
  | cons n rest ih =>
    intro seen
    rw [checkFieldLoop]
    cases hu : startsWithUnderscore n with
    | true => simp [List.forall_mem_cons, hu]
    | false =>
      rw [if_neg (by simp [hu])]
      by_cases hm : n ∈ seen
      · rw [if_pos hm]
        simp [List.forall_mem_cons, hm]
      · rw [if_neg hm, ih (n :: seen)]
        constructor
        · rintro ⟨h1, h2, h3⟩
          refine ⟨?_, ?_, ?_⟩
          · intro x hx
            rcases List.mem_cons.mp hx with rfl | hx'
            · exact hu
            · exact h1 x hx'
          · intro x hx
            rcases List.mem_cons.mp hx with rfl | hx'
            · exact hm
            · intro hxs
              exact (h2 x hx') (List.mem_cons_of_mem _ hxs)
          · rw [List.nodup_cons]
            exact ⟨fun hmem => (h2 n hmem) (List.mem_cons_self n seen), h3⟩
        · rintro ⟨h1, h2, h3⟩
          rw [List.nodup_cons] at h3
          refine ⟨fun x hx => h1 x (List.mem_cons_of_mem _ hx), ?_, h3.2⟩
          intro x hx hmem
          rcases List.mem_cons.mp hmem with rfl | hxs
          · exact h3.1 hx
          · exact (h2 x (List.mem_cons_of_mem _ hx)) hxs

theorem checkFieldLoop_ok_or_naming (fields : List (List Char)) :
    ∀ seen, checkFieldLoop seen fields = .ok () ∨
      ∃ msg, checkFieldLoop seen fields = .error (.valueError msg) := by
  induction fields with
  | nil =>
    intro seen
    left
    rfl
  | cons n rest ih =>
    intro seen
    rw [checkFieldLoop]
    cases hu : startsWithUnderscore n with
    | true => exact Or.inr ⟨MSG_UNDERSCORE, by simp⟩
    | false =>
      rw [if_neg (by simp [hu])]
      by_cases hm : n ∈ seen
      · exact Or.inr ⟨MSG_DUP, by rw [if_pos hm]⟩
      · rw [if_neg hm]
        exact ih (n :: seen)

/-- Claim C7 counterexample: with the empty class name and the field name
`"9x"`, a declared name starts with a digit, yet the factory fails with an
`IndexError` — Python's `name[0]` on the empty class name, reached before
the digit check on `"9x"` — which is not a naming error. -/
theorem wrapfunc_empty_name_indexError :
    wrapfuncValidate [] [['9', 'x']] = .error .indexError ∧
    startsWithDigit ['9', 'x'] = true ∧
    isNamingError (.error .indexError) = false :=
  ⟨rfl, rfl, rfl⟩

/-- Claim C7, amended: provided every declared name is nonempty, the
factory validation succeeds exactly when every declared name (class name
included) consists of alphanumerics and underscores and does not start with
a digit, no field name starts with an underscore, and the field names are
pairwise distinct; whenever one of these conditions fails the factory
raises a naming error (`ValueError`).  (An empty declared name escapes the
character checks and raises `IndexError` from `name[0]` instead.) -/
theorem wrapfunc_validation (classname : List Char) (fields : List (List Char))
    (hne : ∀ n ∈ classname :: fields, n ≠ []) :
    (wrapfuncValidate classname fields = .ok () ↔
      ((classname :: fields).all specNameOk = true ∧
       fields.all (fun n => !startsWithUnderscore n) = true ∧
       fields.Nodup)) ∧
    (¬ ((classname :: fields).all specNameOk = true ∧
        fields.all (fun n => !startsWithUnderscore n) = true ∧
        fields.Nodup) →
      isNamingError (wrapfuncValidate classname fields) = true) := by
  have hA : checkNamesLoop (classname :: fields) = .ok () ↔
      (classname :: fields).all specNameOk = true := by
    rw [checkNamesLoop_ok_iff, List.all_eq_true]
    constructor
    · intro hh n hn
      exact (checkName_ok_iff n (hne n hn)).mp (hh n hn)
    · intro hh n hn
      exact (checkName_ok_iff n (hne n hn)).mpr (hh n hn)
  have hB : checkFieldLoop [] fields = .ok () ↔
      (fields.all (fun n => !startsWithUnderscore n) = true ∧ fields.Nodup) := by
    rw [checkFieldLoop_ok_iff fields [], List.all_eq_true]
    simp [Bool.not_eq_true']
  cases hloop : checkNamesLoop (classname :: fields) with
  | error e =>
    have hval : wrapfuncValidate classname fields = .error e := by
      rw [wrapfuncValidate, hloop]
    obtain ⟨msg, rfl⟩ : ∃ msg, e = PyErr.valueError msg := by
      rcases checkNamesLoop_ok_or_naming (classname :: fields) hne with hh | ⟨msg, hh⟩
      · rw [hloop] at hh
        cases hh
      · rw [hloop] at hh
        exact ⟨msg, by injection hh⟩
    constructor
    · constructor
      · intro hh
        rw [hval] at hh
        cases hh
      · rintro ⟨hall, -, -⟩
        have := hA.mpr hall
        rw [hloop] at this
        cases this
    · intro _
      rw [hval]
      rfl
  | ok u =>
    cases u
    have heq : wrapfuncValidate classname fields = checkFieldLoop [] fields := by
      rw [wrapfuncValidate, hloop]
    have hallok : (classname :: fields).all specNameOk = true := hA.mp hloop
    constructor
    · rw [heq, hB]
      constructor
      · rintro ⟨u1, u2⟩
        exact ⟨hallok, u1, u2⟩
      · rintro ⟨-, u1, u2⟩
        exact ⟨u1, u2⟩
    · intro hnot
      rw [heq]
      rcases checkFieldLoop_ok_or_naming fields [] with hh | ⟨msg, hh⟩
      · exact absurd ⟨hallok, (hB.mp hh).1, (hB.mp hh).2⟩ hnot
      · rw [hh]
        rfl

/-- Witness for the amended C7: the class name `"Mul"` with the single
field name `"alpha"` (the factory call that builds the `Mul` operator)
passes validation. -/
theorem wrapfunc_validation_witness :
    (∀ n ∈ (['M', 'u', 'l'] :: [['a', 'l', 'p', 'h', 'a']]), n ≠ []) ∧
    wrapfuncValidate ['M', 'u', 'l'] [['a', 'l', 'p', 'h', 'a']] = .ok () :=
  ⟨by decide,
   (wrapfunc_validation ['M', 'u', 'l'] [['a', 'l', 'p', 'h', 'a']]
      (by decide)).1.mpr (by refine ⟨?_, ?_, ?_⟩ <;> decide)⟩
